import Mathlib

/-!
Verification of the Accessible Image Captioner repository.

The repository consists of `utils/captioner.py` (the `ImageCaptioner`
class wrapping an opaque vision-language model) and `main.py` (the
`AccessibleImageCaptionerApp` tkinter application).  We give a shallow
embedding: the opaque PIL / model behaviour is an explicit oracle
(`CaptionModel`), GUI handlers become pure functions from application
state to a new state paired with a list of observable effects
(dialogs shown, background tasks dispatched, files written).
-/

/-- A decoded PIL image: its colour `mode` (e.g. "RGB", "L") and an
abstract identifier for its pixel content. -/
structure PILImage where
  mode : String
  data : Nat
deriving Repr, DecidableEq

/-- Oracle for the opaque external behaviour used by
`ImageCaptioner.generate_caption`: what `Image.open` yields for a path
(`none` means the call raises), whether the processor / model /
decode pipeline raises on a given image and generation parameters,
and the decoded caption text it produces when it does not raise. -/
structure CaptionModel where
  open_image : String → Option PILImage
  infer_ok : PILImage → Nat → Nat → Bool
  decode_text : PILImage → Nat → Nat → String

namespace ImageCaptioner

/-- Python `str.strip()`: remove leading and trailing whitespace. -/
def strip (s : String) : String :=
  ⟨((s.data.dropWhile Char.isWhitespace).reverse.dropWhile
      Char.isWhitespace).reverse⟩

/-- PIL `image.convert("RGB")`: the result always has mode "RGB" and
carries the same abstract content. -/
def convert_rgb (image : PILImage) : PILImage :=
  { image with mode := "RGB" }

/-- The mode-normalisation step of `generate_caption`
(captioner.py lines 92-93): convert to RGB when the mode differs. -/
def ensure_rgb (image : PILImage) : PILImage :=
  if image.mode != "RGB" then convert_rgb image else image

/-- `ImageCaptioner.generate_caption` (captioner.py lines 70-113).
The whole body is wrapped in try/except returning `None` on any
exception; on success it returns the decoded caption with
surrounding whitespace stripped. -/
def generate_caption (model : CaptionModel) (image_path : String)
    (max_length : Nat) (num_beams : Nat) : Option String :=
  match model.open_image image_path with
  | none => none
  | some image =>
    let image := ensure_rgb image
    if model.infer_ok image max_length num_beams then
      some (strip (model.decode_text image max_length num_beams))
    else
      none

/-- `ImageCaptioner.batch_generate_captions` (captioner.py lines
115-136): per-path captioning, a falsy result (`None` or the empty
string) replaced by the sentinel `"Unable to generate caption"`. -/
def batch_generate_captions (model : CaptionModel)
    (image_paths : List String) (max_length : Nat) (num_beams : Nat) :
    List String :=
  image_paths.map (fun img_path =>
    match generate_caption model img_path max_length num_beams with
    | some caption =>
      if caption = "" then "Unable to generate caption" else caption
    | none => "Unable to generate caption")

end ImageCaptioner

/-- A unit of deferred background work dispatched by the app. -/
inductive AppTask where
  | loadModel
  | generateCaption (path : String)
  | speak (text : String)
deriving Repr, DecidableEq

/-- Observable effects of a GUI handler: message boxes, background
task dispatches, and the file write of the export handler (path,
encoding mode, content written). -/
inductive Effect where
  | warning (title : String) (msg : String)
  | error (title : String) (msg : String)
  | info (title : String) (msg : String)
  | dispatch (t : AppTask)
  | writeFile (path : String) (encoding : String) (content : String)
deriving Repr, DecidableEq

/-- Is an effect the dispatch of some background task? -/
def Effect.isDispatch : Effect → Bool
  | .dispatch _ => true
  | _ => false

/-- Is an effect the display of a warning box? -/
def Effect.isWarning : Effect → Bool
  | .warning _ _ => true
  | _ => false

/-- The mutable state of `AccessibleImageCaptionerApp`: the session
fields (`current_image_path`, `current_caption`), whether
`self.captioner` / `self.tts_engine` are set, the enabled state of
the three caption-related buttons, the progress bar, and the status
line. -/
structure AppState where
  current_image_path : Option String
  current_caption : Option String
  captionerLoaded : Bool
  ttsAvailable : Bool
  generateEnabled : Bool
  readEnabled : Bool
  exportEnabled : Bool
  progressRunning : Bool
  status : String
deriving Repr, DecidableEq

/-- Python truthiness of an optional string: `None` and `""` are
falsy. -/
def truthy : Option String → Bool
  | none => false
  | some s => s != ""

/-- `Path(p).name`: the final component of a path. -/
def path_name (p : String) : String :=
  ((p.splitOn "/").reverse).headD p

namespace App

/-- `AccessibleImageCaptionerApp._load_image` (main.py lines 309-342).
`openOk` records whether the image-loading steps inside the `try`
block (`Image.open`, thumbnail, `PhotoImage`, label update) succeed;
the assignment to `current_image_path` happens before any of them. -/
def _load_image (s : AppState) (image_path : String) (openOk : Bool) :
    AppState × List Effect :=
  let s1 := { s with current_image_path := some image_path }
  if openOk then
    let s2 :=
      if s1.captionerLoaded then { s1 with generateEnabled := true } else s1
    ({ s2 with
        status := "Image loaded: " ++ path_name image_path,
        current_caption := none,
        readEnabled := false,
        exportEnabled := false }, [])
  else
    (s1, [Effect.error "Error" "Failed to load image"])

/-- `AccessibleImageCaptionerApp.generate_caption` (main.py lines
344-367): reject with a warning when no image is selected or the
model is not loaded; otherwise disable the button, start the
progress bar and dispatch the captioning task. -/
def generate_caption (s : AppState) : AppState × List Effect :=
  if truthy s.current_image_path = false then
    (s, [Effect.warning "No Image" "Please select an image first."])
  else if s.captionerLoaded = false then
    (s, [Effect.warning "Model Not Ready" "Please wait for the model to load."])
  else
    ({ s with
        generateEnabled := false,
        progressRunning := true,
        status := "Generating caption..." },
     [Effect.dispatch (AppTask.generateCaption (s.current_image_path.getD ""))])

/-- `AccessibleImageCaptionerApp.read_aloud` (main.py lines 401-421):
reject with a warning when no caption exists, show an error when the
TTS engine is unavailable, otherwise dispatch the speech task and
update the status line. -/
def read_aloud (s : AppState) : AppState × List Effect :=
  if truthy s.current_caption = false then
    (s, [Effect.warning "No Caption" "Please generate a caption first."])
  else if s.ttsAvailable = false then
    (s, [Effect.error "TTS Error" "Text-to-speech engine is not available."])
  else
    ({ s with status := "Reading caption aloud..." },
     [Effect.dispatch (AppTask.speak (s.current_caption.getD ""))])

/-- `AccessibleImageCaptionerApp._on_caption_error` (main.py lines
394-399). -/
def _on_caption_error (s : AppState) (error_msg : String) :
    AppState × List Effect :=
  ({ s with
      progressRunning := false,
      generateEnabled := true,
      status := "Caption generation failed" },
   [Effect.error "Error" ("Caption generation failed: " ++ error_msg)])

/-- `AccessibleImageCaptionerApp._on_caption_generated` (main.py
lines 369-392): on a truthy caption, store it, enable the read and
export buttons and call `read_aloud`; otherwise fall through to
`_on_caption_error`. -/
def _on_caption_generated (s : AppState) (caption : Option String) :
    AppState × List Effect :=
  let s1 := { s with progressRunning := false, generateEnabled := true }
  if truthy caption then
    let c := caption.getD ""
    let s2 := { s1 with
        current_caption := some c,
        readEnabled := true,
        exportEnabled := true,
        status := "Caption generated successfully!" }
    read_aloud s2
  else
    _on_caption_error s1 "Failed to generate caption"

/-- `AccessibleImageCaptionerApp.export_caption` (main.py lines
423-450): reject with a warning when no caption exists; `chosen` is
the result of the save dialog (falsy when cancelled); `writeOk`
records whether the file write succeeds.  The caption is written
as-is in mode "w" with encoding "utf-8". -/
def export_caption (s : AppState) (chosen : Option String)
    (writeOk : Bool) : AppState × List Effect :=
  if truthy s.current_caption = false then
    (s, [Effect.warning "No Caption" "Please generate a caption first."])
  else
    match chosen with
    | none => (s, [])
    | some file_path =>
      if file_path = "" then (s, [])
      else if writeOk then
        ({ s with status := "Caption exported to " ++ path_name file_path },
         [Effect.writeFile file_path "utf-8" (s.current_caption.getD ""),
          Effect.info "Success"
            ("Caption exported successfully to: " ++ file_path)])
      else
        (s, [Effect.error "Export Error" "Failed to export caption"])

end App

/-! ### Concrete inputs used by the counterexamples and witnesses -/

/-- A model world in which every `Image.open` raises (e.g. the file
does not exist or cannot be decoded). -/
def envFailA : CaptionModel :=
  ⟨fun _ => none, fun _ _ _ => true, fun _ _ _ => "a photo"⟩

/-- A model world in which the image decodes to an RGB image,
inference succeeds, and the model decodes to whitespace only. -/
def envWS : CaptionModel :=
  ⟨fun _ => some ⟨"RGB", 0⟩, fun _ _ _ => true, fun _ _ _ => "   "⟩

/-- A model world in which the image decodes to a grayscale ("L")
image and inference succeeds with a normal caption. -/
def envGray : CaptionModel :=
  ⟨fun _ => some ⟨"L", 7⟩, fun _ _ _ => true, fun _ _ _ => " a dog "⟩

/-- An app state with an image loaded, the model loaded, but the TTS
engine unavailable (pyttsx3 initialisation failed). -/
def stateNoTTS : AppState :=
  ⟨some "photo.jpg", none, true, false, true, false, false, false, "ready"⟩

/-- An app state with an image loaded, the model loaded and the TTS
engine available. -/
def stateReady : AppState :=
  ⟨some "photo.jpg", none, true, true, true, false, false, false, "ready"⟩

/-- The app state right after startup: no image, no caption, model
still loading. -/
def stateStartup : AppState :=
  ⟨none, none, false, true, false, false, false, false,
   "Loading model, please wait..."⟩

/-- An app state in which a caption has been generated. -/
def stateCaptioned : AppState :=
  ⟨some "photo.jpg", some "a red square", true, true, true, true, true, false,
   "Caption generated successfully!"⟩

/-! ### Claims -/

/-- Claim C1, counterexample to the claim as stated: for the batch
`[imgA, imgA]` where `imgA` fails decoding, the code yields the
sentinel `"Unable to generate caption"` (capital U, captioner.py line
135), not the claimed `"unable to generate caption"`. -/
theorem C1_sentinel_counterexample :
    ImageCaptioner.generate_caption envFailA "imgA" 50 4 = none ∧
    ImageCaptioner.batch_generate_captions envFailA ["imgA", "imgA"] 50 4
      = ["Unable to generate caption", "Unable to generate caption"] ∧
    ImageCaptioner.batch_generate_captions envFailA ["imgA", "imgA"] 50 4
      ≠ ["unable to generate caption", "unable to generate caption"] := by
  refine ⟨rfl, by decide, by decide⟩

/-- Claim C1 as amended: `batch_generate_captions` returns a list of
the same length as the input and never raises (it is total in the
embedding), and every entry whose per-image captioning fails is the
sentinel string "Unable to generate caption". -/
theorem C1_batch_sentinel (model : CaptionModel) (image_paths : List String)
    (max_length num_beams : Nat) (i : Nat) (p : String)
    (hp : image_paths[i]? = some p)
    (hfail : ImageCaptioner.generate_caption model p max_length num_beams
      = none) :
    (ImageCaptioner.batch_generate_captions model image_paths max_length
        num_beams).length = image_paths.length ∧
    (ImageCaptioner.batch_generate_captions model image_paths max_length
        num_beams)[i]? = some "Unable to generate caption" := by
  constructor
  · simp [ImageCaptioner.batch_generate_captions]
  · simp [ImageCaptioner.batch_generate_captions, List.getElem?_map, hp, hfail]

/-- Witness for `C1_batch_sentinel` at the batch `[imgA, imgA]` in a
world where `imgA` fails decoding. -/
theorem C1_batch_sentinel_witness :
    (ImageCaptioner.batch_generate_captions envFailA ["imgA", "imgA"] 50
        4).length = 2 ∧
    (ImageCaptioner.batch_generate_captions envFailA ["imgA", "imgA"] 50
        4)[0]? = some "Unable to generate caption" :=
  C1_batch_sentinel envFailA ["imgA", "imgA"] 50 4 0 "imgA" (by decide) rfl

/-- Claim C2 (confirmed): `_load_image`, on a successful load, clears
any previous caption, records the new image path, and disables the
caption-dependent Read Aloud and Export affordances (main.py lines
333-339), for every starting state — in particular one holding a
caption. -/
theorem C2_load_clears_caption (s : AppState) (image_path : String) :
    (App._load_image s image_path true).1.current_caption = none ∧
    (App._load_image s image_path true).1.current_image_path
      = some image_path ∧
    (App._load_image s image_path true).1.readEnabled = false ∧
    (App._load_image s image_path true).1.exportEnabled = false := by
  by_cases h : s.captionerLoaded <;> simp [App._load_image, h]

/-- Claim C3, counterexample to the claim as stated: in a world where
the image decodes to a supported RGB image and the model pipeline
succeeds but decodes to whitespace only, `generate_caption` returns
`some ""` (captioner.py line 109 strips the decode) — an empty
caption with no error signalled, contradicting "non-empty caption
string or CaptionError". -/
theorem C3_empty_caption_counterexample :
    envWS.open_image "img.png" = some ⟨"RGB", 0⟩ ∧
    ImageCaptioner.generate_caption envWS "img.png" 50 4 = some "" := by
  refine ⟨rfl, by decide⟩

/-- Claim C3 as amended: for every image that is successfully decoded,
`generate_caption` yields a caption string (the stripped model
decode, which can be empty when the model emits only whitespace) or
signals failure by returning `None`; the outcome is never
simultaneously no-caption and no-error: when inference succeeds the
result is not `None`, and the result is exactly determined by
whether inference raises. -/
theorem C3_caption_or_error (model : CaptionModel) (image_path : String)
    (max_length num_beams : Nat) (img : PILImage)
    (hopen : model.open_image image_path = some img) :
    (ImageCaptioner.generate_caption model image_path max_length num_beams
        ≠ none ∨
      model.infer_ok (ImageCaptioner.ensure_rgb img) max_length num_beams
        = false) ∧
    ImageCaptioner.generate_caption model image_path max_length num_beams
      = (if model.infer_ok (ImageCaptioner.ensure_rgb img) max_length
            num_beams then
          some (ImageCaptioner.strip (model.decode_text
            (ImageCaptioner.ensure_rgb img) max_length num_beams))
        else none) := by
  have hg : ImageCaptioner.generate_caption model image_path max_length
      num_beams
      = (if model.infer_ok (ImageCaptioner.ensure_rgb img) max_length
            num_beams then
          some (ImageCaptioner.strip (model.decode_text
            (ImageCaptioner.ensure_rgb img) max_length num_beams))
        else none) := by
    simp [ImageCaptioner.generate_caption, hopen]
  refine ⟨?_, hg⟩
  by_cases h : model.infer_ok (ImageCaptioner.ensure_rgb img) max_length
      num_beams
  · exact Or.inl (by rw [hg]; simp [h])
  · exact Or.inr (by simpa using h)

/-- Witness for `C3_caption_or_error` in a world where a grayscale
image decodes successfully. -/
theorem C3_caption_or_error_witness :
    (ImageCaptioner.generate_caption envGray "g.png" 50 4 ≠ none ∨
      envGray.infer_ok (ImageCaptioner.ensure_rgb ⟨"L", 7⟩) 50 4 = false) ∧
    ImageCaptioner.generate_caption envGray "g.png" 50 4
      = (if envGray.infer_ok (ImageCaptioner.ensure_rgb ⟨"L", 7⟩) 50 4 then
          some (ImageCaptioner.strip (envGray.decode_text
            (ImageCaptioner.ensure_rgb ⟨"L", 7⟩) 50 4))
        else none) :=
  C3_caption_or_error envGray "g.png" 50 4 ⟨"L", 7⟩ rfl

/-- Claim C4, counterexample to the claim as stated: when the TTS
engine failed to initialise (`self.tts_engine` is `None`),
`_on_caption_generated` with the fresh caption "a red square" stores
the caption and enters the caption-ready configuration, but
`read_aloud` (main.py lines 407-409) shows a TTS error instead of
dispatching any `Speak` task. -/
theorem C4_no_tts_counterexample :
    (App._on_caption_generated stateNoTTS (some "a red square")).1.current_caption
      = some "a red square" ∧
    (App._on_caption_generated stateNoTTS (some "a red square")).2
      = [Effect.error "TTS Error" "Text-to-speech engine is not available."] ∧
    ((App._on_caption_generated stateNoTTS (some "a red square")).2.any
        Effect.isDispatch) = false := by
  refine ⟨by decide, by decide, by decide⟩

/-- Claim C4 as amended: for every successful caption generation
(`_on_caption_generated` with a truthy caption), provided the TTS
engine initialised successfully, a `Speak` task carrying the new
caption is automatically dispatched — no separate Read Aloud command
is needed — and the caption-ready configuration is entered. -/
theorem C4_auto_speak (s : AppState) (c : String) (hc : c ≠ "")
    (htts : s.ttsAvailable = true) :
    (App._on_caption_generated s (some c)).1.current_caption = some c ∧
    (App._on_caption_generated s (some c)).1.readEnabled = true ∧
    (App._on_caption_generated s (some c)).1.exportEnabled = true ∧
    (App._on_caption_generated s (some c)).2
      = [Effect.dispatch (AppTask.speak c)] := by
  simp [App._on_caption_generated, App.read_aloud, truthy, hc, htts]

/-- Witness for `C4_auto_speak` at a ready state with TTS available. -/
theorem C4_auto_speak_witness :
    (App._on_caption_generated stateReady (some "a red square")).1.current_caption
      = some "a red square" ∧
    (App._on_caption_generated stateReady (some "a red square")).1.readEnabled
      = true ∧
    (App._on_caption_generated stateReady (some "a red square")).1.exportEnabled
      = true ∧
    (App._on_caption_generated stateReady (some "a red square")).2
      = [Effect.dispatch (AppTask.speak "a red square")] :=
  C4_auto_speak stateReady "a red square" (by decide) rfl

/-- Claim C5 (confirmed): whenever `Session.caption` is absent,
`read_aloud` (main.py lines 403-405) is rejected: the state is
unchanged, exactly one warning box is shown, and no speech task is
dispatched. -/
theorem C5_read_aloud_rejected (s : AppState)
    (h : s.current_caption = none) :
    App.read_aloud s
      = (s, [Effect.warning "No Caption" "Please generate a caption first."]) ∧
    ((App.read_aloud s).2.any Effect.isDispatch) = false := by
  constructor
  · simp [App.read_aloud, truthy, h]
  · simp [App.read_aloud, truthy, h, Effect.isDispatch]

/-- Witness for `C5_read_aloud_rejected` at the startup state. -/
theorem C5_read_aloud_rejected_witness :
    App.read_aloud stateStartup
      = (stateStartup,
         [Effect.warning "No Caption" "Please generate a caption first."]) ∧
    ((App.read_aloud stateStartup).2.any Effect.isDispatch) = false :=
  C5_read_aloud_rejected stateStartup rfl

/-- Claim C6 (confirmed): whenever `Session.image` is absent or the
captioning model has not finished loading, `generate_caption`
(main.py lines 346-352) is rejected: the state is unchanged, a
warning is shown, and no captioning task is dispatched. -/
theorem C6_generate_rejected (s : AppState)
    (h : s.current_image_path = none ∨ s.captionerLoaded = false) :
    (App.generate_caption s).1 = s ∧
    ((App.generate_caption s).2.any Effect.isWarning) = true ∧
    ((App.generate_caption s).2.any Effect.isDispatch) = false := by
  rcases h with h | h
  · simp [App.generate_caption, truthy, h, Effect.isWarning, Effect.isDispatch]
  · cases himg : s.current_image_path with
    | none =>
      simp [App.generate_caption, truthy, himg, Effect.isWarning,
        Effect.isDispatch]
    | some p =>
      by_cases hp : p = ""
      · simp [App.generate_caption, truthy, himg, hp, Effect.isWarning,
          Effect.isDispatch]
      · simp [App.generate_caption, truthy, himg, hp, h, Effect.isWarning,
          Effect.isDispatch]

/-- Witness for `C6_generate_rejected` at the startup state (no image
and model not yet loaded). -/
theorem C6_generate_rejected_witness :
    (App.generate_caption stateStartup).1 = stateStartup ∧
    ((App.generate_caption stateStartup).2.any Effect.isWarning) = true ∧
    ((App.generate_caption stateStartup).2.any Effect.isDispatch) = false :=
  C6_generate_rejected stateStartup (Or.inl rfl)

/-- Claim C7 (confirmed): for every input image whose colour mode is
not "RGB", `generate_caption` applies `image.convert("RGB")` before
the inference step (captioner.py lines 92-93), so inference receives
the converted, mode-"RGB" image. -/
theorem C7_rgb_normalized (model : CaptionModel) (image_path : String)
    (max_length num_beams : Nat) (img : PILImage)
    (hopen : model.open_image image_path = some img)
    (hmode : img.mode ≠ "RGB") :
    ImageCaptioner.ensure_rgb img = ImageCaptioner.convert_rgb img ∧
    (ImageCaptioner.ensure_rgb img).mode = "RGB" ∧
    ImageCaptioner.generate_caption model image_path max_length num_beams
      = (if model.infer_ok (ImageCaptioner.convert_rgb img) max_length
            num_beams then
          some (ImageCaptioner.strip (model.decode_text
            (ImageCaptioner.convert_rgb img) max_length num_beams))
        else none) := by
  have h1 : ImageCaptioner.ensure_rgb img = ImageCaptioner.convert_rgb img := by
    simp [ImageCaptioner.ensure_rgb, hmode]
  refine ⟨h1, by rw [h1]; rfl, ?_⟩
  simp [ImageCaptioner.generate_caption, hopen, h1]

/-- Witness for `C7_rgb_normalized` at a grayscale image. -/
theorem C7_rgb_normalized_witness :
    ImageCaptioner.ensure_rgb ⟨"L", 7⟩
      = ImageCaptioner.convert_rgb ⟨"L", 7⟩ ∧
    (ImageCaptioner.ensure_rgb (⟨"L", 7⟩ : PILImage)).mode = "RGB" ∧
    ImageCaptioner.generate_caption envGray "g.png" 50 4
      = (if envGray.infer_ok (ImageCaptioner.convert_rgb ⟨"L", 7⟩) 50 4 then
          some (ImageCaptioner.strip (envGray.decode_text
            (ImageCaptioner.convert_rgb ⟨"L", 7⟩) 50 4))
        else none) :=
  C7_rgb_normalized envGray "g.png" 50 4 ⟨"L", 7⟩ rfl (by decide)

/-- Claim C8 (confirmed): for every successful export, the content
written to the user-chosen file is exactly `Session.caption`, in
mode "w" with encoding "utf-8" (main.py lines 444-445) — no
transformation, prefix, suffix, or formatting added; the only other
effect is the success dialog. -/
theorem C8_export_verbatim (s : AppState) (c file_path : String)
    (hc : s.current_caption = some c) (hcne : c ≠ "")
    (hp : file_path ≠ "") :
    (App.export_caption s (some file_path) true).2
      = [Effect.writeFile file_path "utf-8" c,
         Effect.info "Success"
           ("Caption exported successfully to: " ++ file_path)] := by
  simp [App.export_caption, truthy, hc, hcne, hp]

/-- Witness for `C8_export_verbatim` at a captioned state. -/
theorem C8_export_verbatim_witness :
    (App.export_caption stateCaptioned (some "out.txt") true).2
      = [Effect.writeFile "out.txt" "utf-8" "a red square",
         Effect.info "Success"
           ("Caption exported successfully to: " ++ "out.txt")] :=
  C8_export_verbatim stateCaptioned "a red square" "out.txt" rfl
    (by decide) (by decide)

/-- Claim C9 (confirmed): `ImageCaptioner.generate_caption` is total
with respect to exceptions — in the embedding it is a total function
into `Option String`, so it always returns a string or `None` — and
every internal failure (unreadable or undecodable path, or a raise
in the processor / model / decode pipeline) is caught by the
try/except (captioner.py lines 87-113) and converted to `None`. -/
theorem C9_generate_total (model : CaptionModel) (image_path : String)
    (max_length num_beams : Nat)
    (hfail : model.open_image image_path = none ∨
      ∃ img, model.open_image image_path = some img ∧
        model.infer_ok (ImageCaptioner.ensure_rgb img) max_length num_beams
          = false) :
    ImageCaptioner.generate_caption model image_path max_length num_beams
      = none := by
  rcases hfail with h | ⟨img, hopen, hinf⟩
  · simp [ImageCaptioner.generate_caption, h]
  · simp [ImageCaptioner.generate_caption, hopen, hinf]

/-- Witness for `C9_generate_total` in a world where `Image.open`
raises. -/
theorem C9_generate_total_witness :
    ImageCaptioner.generate_caption envFailA "broken.jpg" 50 4 = none :=
  C9_generate_total envFailA "broken.jpg" 50 4 (Or.inl rfl)

/-- Claim C10 (confirmed): when the body of `_load_image` raises
(the image cannot be opened or displayed), `current_image_path` has
already been updated to the new path — the assignment at main.py
line 312 precedes `Image.open` — while the caption and the three
button states keep their previous values: the failed load is not
atomic with respect to the session. -/
theorem C10_load_not_atomic (s : AppState) (image_path : String) :
    (App._load_image s image_path false).1.current_image_path
      = some image_path ∧
    (App._load_image s image_path false).1.current_caption
      = s.current_caption ∧
    (App._load_image s image_path false).1.readEnabled = s.readEnabled ∧
    (App._load_image s image_path false).1.exportEnabled = s.exportEnabled ∧
    (App._load_image s image_path false).1.generateEnabled
      = s.generateEnabled := by
  simp [App._load_image]
